import Mathlib

/-!
Shallow embedding of the post-harvest loss decision-support scripts.

The repository holds five Streamlit scripts built around the same idea: a
hard-coded table mapping a crop and a storage method to a risk triple
(risk level, justification, recommendation), and an assessment function
that looks the pair up and falls back to an `Unknown` result when either
key is missing.  Python dictionaries become association lists here
(`List (String × key-value)`), `dict[k]` with `try/except KeyError`
becomes an `Option`-valued lookup, and the result dictionaries become
either a record (for `PHL.py`, whose result always has the same six keys)
or an association list (for the prototype variants, where the set of keys
is exactly what one of the claims is about).
-/

/-- Python `str.lower()` on the ASCII letters, as applied to region names. -/
def pyLower (s : String) : String :=
  String.mk (s.toList.map Char.toLower)

/-- Python `str.capitalize()`: first character uppercased, all following
characters lowercased. -/
def pyCapitalize (s : String) : String :=
  match s.toList with
  | [] => ""
  | c :: cs => String.mk (c.toUpper :: cs.map Char.toLower)

/-- Python truthiness of an optional string, as in `if region:`.
`None` and the empty string are falsy. -/
def pyTruthy : Option String → Bool
  | none => false
  | some s => !s.isEmpty

/-- Python `x or default` where `x` is `None` or a string: `None` and the
empty string give the default, any other string gives itself. -/
def pyOr : Option String → String → String
  | none, d => d
  | some s, d => if s.isEmpty then d else s

namespace PHL

/-- The `region_season` dictionary of `PHL.py`. -/
def region_season : List (String × String) :=
  [("north", "Dry"), ("south", "Wet"), ("middle-belt", "Transition")]

/-- Entries of `storage_risk_rules["tomato"]` in `PHL.py`. -/
def tomato_rules : List (String × (String × String × Option String)) :=
  [("open shed", ("High", "Tomatoes are highly perishable and degrade fast in open-air storage.", some "Use evaporative cooling or cold storage.")),
   ("sack", ("High", "Sacks retain heat and moisture, accelerating spoilage for tomatoes.", some "Use ventilated crates or shaded baskets.")),
   ("evap. cooler", ("Medium", "Evaporative coolers reduce temperature but need constant water and shade.", some "Ensure cooler is well-maintained.")),
   ("cold room", ("Low", "Cold storage preserves tomato freshness and extends shelf life.", none))]

/-- Entries of `storage_risk_rules["cassava"]` in `PHL.py`. -/
def cassava_rules : List (String × (String × String × Option String)) :=
  [("open shed", ("High", "Cassava ferments within 2-3 days if not processed or cooled.", some "Process quickly or use evaporative cooling.")),
   ("sack", ("High", "Sacks speed up fermentation and limit airflow.", some "Use ventilated containers or immediate processing.")),
   ("evap. cooler", ("Medium", "Slows fermentation but doesn\x27t stop it.", some "Process as soon as possible.")),
   ("cold room", ("Low", "Cold slows microbial action and keeps cassava usable longer.", none))]

/-- Entries of `storage_risk_rules["yam"]` in `PHL.py`. -/
def yam_rules : List (String × (String × String × Option String)) :=
  [("open shed", ("Medium", "Yam is less sensitive but can sprout or rot in moist environments.", some "Store on raised wooden racks.")),
   ("sack", ("Medium", "Risk of physical bruising and airflow restriction.", some "Use ventilated stacks.")),
   ("warehouse (well-ventilated)", ("Low", "Properly stored yam in ventilated warehouse lasts several weeks.", none))]

/-- Entries of `storage_risk_rules["plantain"]` in `PHL.py`. -/
def plantain_rules : List (String × (String × String × Option String)) :=
  [("open shed", ("High", "Ripens fast in heat and becomes mushy.", some "Use cool ventilated area.")),
   ("sack", ("High", "Promotes heat and bruising.", some "Use shallow trays or hanging bunches.")),
   ("evap. cooler", ("Medium", "Slows ripening but needs constant monitoring.", none)),
   ("cold room", ("Low", "Best option to delay ripening significantly.", none))]

/-- Entries of `storage_risk_rules["onion"]` in `PHL.py`. -/
def onion_rules : List (String × (String × String × Option String)) :=
  [("open shed", ("Medium", "Dry onion stores well in open shade but needs airflow.", some "Hang in mesh bags.")),
   ("sack", ("Medium", "Can trap moisture if not stored dry.", some "Ensure proper ventilation.")),
   ("warehouse (well-ventilated)", ("Low", "Ideal for storing dry onions.", none))]

/-- Entries of `storage_risk_rules["maize"]` in `PHL.py`. -/
def maize_rules : List (String × (String × String × Option String)) :=
  [("open shed", ("Medium", "Shelled maize risks mold if humidity is high.", some "Ensure dry conditions.")),
   ("sack", ("High", "Sacks retain moisture if maize is not well dried.", some "Use hermetic bags.")),
   ("warehouse (well-ventilated)", ("Low", "Dry maize stores well in ventilated space.", none))]

/-- The `storage_risk_rules` dictionary of `PHL.py`: crop name to
storage-method table, each entry a `(risk, justification, recommendation)`
triple whose third component may be `None`. -/
def storage_risk_rules : List (String × List (String × (String × String × Option String))) :=
  [("tomato", tomato_rules), ("cassava", cassava_rules), ("yam", yam_rules),
   ("plantain", plantain_rules), ("onion", onion_rules), ("maize", maize_rules)]

/-- The double indexing `storage_risk_rules[crop_type][storage_method]`:
`none` exactly when the Python expression raises `KeyError`, i.e. when the
crop is absent or the crop is present but the method is not under it. -/
def lookupRule (crop_type storage_method : String) : Option (String × String × Option String) :=
  (storage_risk_rules.lookup crop_type).bind (List.lookup storage_method)

/-- The result dictionary built by `assess_storage_risk` in `PHL.py`.
Field names stand for the dictionary keys "Crop", "Storage Method",
"Season (based on region)", "Risk Level", "Justification" and
"Recommendation", which are present in every result. -/
structure Assessment where
  crop : String
  storageMethod : String
  season : String
  riskLevel : String
  justification : String
  recommendation : String
deriving DecidableEq, Repr

/-- `assess_storage_risk` of `PHL.py`.  `region` is the optional third
parameter (Python default `None`).  The Python function is total on
strings: the `try/except KeyError` turns both miss causes into the fixed
fallback triple, and every other operation is a pure string operation. -/
def assess_storage_risk (crop_type storage_method : String) (region : Option String) : Assessment :=
  let season := if pyTruthy region then (region_season.lookup (pyLower (region.getD ""))).getD "Dry" else "Dry"
  let rule := match lookupRule crop_type storage_method with
    | some t => t
    | none => ("Unknown", "No data available for this combination.",
               some "Consider using cold storage or consult an extension agent.")
  { crop := pyCapitalize crop_type
    storageMethod := storage_method
    season := if pyTruthy region then season else "N/A"
    riskLevel := rule.1
    justification := rule.2.1
    recommendation := pyOr rule.2.2 "No additional recommendation." }

/-- The `test_inputs` list of `PHL.py`. -/
def test_inputs : List (String × String) :=
  [("tomato", "sack"), ("cassava", "open shed"), ("yam", "warehouse (well-ventilated)"),
   ("plantain", "evap. cooler"), ("onion", "sack"), ("maize", "warehouse (well-ventilated)")]

/-- The `results` loop of `PHL.py` restricted to the column the summary
uses: the risk level of each assessed pair, in batch order. -/
def riskLevelsOf (batch : List (String × String)) : List String :=
  batch.map fun cs => (assess_storage_risk cs.1 cs.2 none).riskLevel

/-- One cell of the `value_counts()` tally over the risk-level column. -/
def riskCount (batch : List (String × String)) (level : String) : Nat :=
  (riskLevelsOf batch).count level

end PHL

namespace MVP

/-- The `storage_risk_rules` literal of
`deepseek_python_20250514_0faeb1.py` (the "MVP Prototype" script): the
file's table holds the tomato block, the remaining crops being elided in
the source with a comment. -/
def storage_risk_rules : List (String × List (String × (String × String × Option String))) :=
  [("tomato",
    [("open shed", ("High", "Tomatoes degrade fast in open-air storage.", some "Use evaporative cooling or cold storage.")),
     ("sack", ("High", "Sacks retain heat/moisture, accelerating spoilage.", some "Use ventilated crates.")),
     ("evap. cooler", ("Medium", "Reduces temperature but needs maintenance.", some "Ensure water supply.")),
     ("cold room", ("Low", "Preserves freshness effectively.", none))])]

/-- `assess_risk` of `deepseek_python_20250514_0faeb1.py`, returned as the
association list of its result dictionary, keys in construction order. -/
def assess_risk (crop_type storage_method : String) : List (String × String) :=
  let rule := match (storage_risk_rules.lookup crop_type).bind (List.lookup storage_method) with
    | some t => t
    | none => ("Unknown", "No data for this combination.", some "Consult an agricultural expert.")
  [("Crop", pyCapitalize crop_type),
   ("Storage Method", storage_method),
   ("Risk Level", rule.1),
   ("Why?", rule.2.1),
   ("Recommendation", pyOr rule.2.2 "No additional action needed.")]

end MVP

namespace AgriGuard

/-- The `storage_risk_rules` literal of
`deepseek_python_20250514_6b08ea.py` (the first "AgriGuard" script): the
file's table holds the tomato and cassava blocks, the remaining crops
being elided in the source with a comment. -/
def storage_risk_rules : List (String × List (String × (String × String × Option String))) :=
  [("tomato",
    [("open shed", ("High", "Tomatoes degrade fast in open-air storage.", some "Use evaporative cooling or cold storage.")),
     ("sack", ("High", "Sacks retain heat/moisture, accelerating spoilage.", some "Use ventilated crates.")),
     ("evap. cooler", ("Medium", "Reduces temperature but needs maintenance.", some "Ensure water supply.")),
     ("cold room", ("Low", "Preserves freshness effectively.", none))]),
   ("cassava",
    [("open shed", ("High", "Ferments within 2-3 days if not cooled.", some "Process quickly or use evaporative cooling.")),
     ("sack", ("High", "Speeds up fermentation.", some "Use ventilated containers.")),
     ("cold room", ("Low", "Slows microbial action.", none))])]

/-- `assess_risk` of `deepseek_python_20250514_6b08ea.py`, returned as the
association list of its result dictionary, keys in construction order.
This variant builds no storage-method entry at all, although the
script's own display line reads `result["Storage Method"]`. -/
def assess_risk (crop_type storage_method : String) : List (String × String) :=
  let rule := match (storage_risk_rules.lookup crop_type).bind (List.lookup storage_method) with
    | some t => t
    | none => ("Unknown", "No data for this combination.", some "Consult an agricultural expert.")
  [("Crop", pyCapitalize crop_type),
   ("Risk Level", rule.1),
   ("Why?", rule.2.1),
   ("Recommendation", pyOr rule.2.2 "No additional action needed.")]

end AgriGuard

namespace AgriGuardRev

/-- The `storage_risk_rules` literal of
`deepseek_python_20250514_ed1ff3.py` (the revised "AgriGuard" script):
tomato, cassava and yam blocks. -/
def storage_risk_rules : List (String × List (String × (String × String × Option String))) :=
  [("tomato",
    [("open shed", ("High", "Tomatoes degrade fast in open-air storage.", some "Use evaporative cooling or cold storage.")),
     ("sack", ("High", "Sacks retain heat/moisture, accelerating spoilage.", some "Use ventilated crates.")),
     ("evap. cooler", ("Medium", "Reduces temperature but needs maintenance.", some "Ensure water supply.")),
     ("cold room", ("Low", "Preserves freshness effectively.", none))]),
   ("cassava",
    [("open shed", ("High", "Ferments within 2-3 days if not cooled.", some "Process quickly or use evaporative cooling.")),
     ("sack", ("High", "Speeds up fermentation.", some "Use ventilated containers.")),
     ("cold room", ("Low", "Slows microbial action.", none))]),
   ("yam",
    [("open shed", ("Medium", "Can sprout or rot in moist environments.", some "Store on raised wooden racks.")),
     ("sack", ("Medium", "Risk of bruising and airflow restriction.", some "Use ventilated stacks.")),
     ("warehouse", ("Low", "Lasts several weeks when properly stored.", none))])]

/-- `assess_risk` of `deepseek_python_20250514_ed1ff3.py`, returned as the
association list of its result dictionary; the storage entry is keyed
"Storage" in this variant, renamed from "Storage Method". -/
def assess_risk (crop_type storage_method : String) : List (String × String) :=
  let rule := match (storage_risk_rules.lookup crop_type).bind (List.lookup storage_method) with
    | some t => t
    | none => ("Unknown", "No data for this combination.", some "Consult an agricultural expert.")
  [("Crop", pyCapitalize crop_type),
   ("Storage", storage_method),
   ("Risk Level", rule.1),
   ("Why?", rule.2.1),
   ("Recommendation", pyOr rule.2.2 "No additional action needed.")]

end AgriGuardRev

namespace AgriSmart

/-- One entry of the `CROP_RISK_RULES` dictionary of
`deepseek_python_20250514_1975cc.py`: keys "risk", "reason" and
"recommendation", all present on every entry. -/
structure RuleEntry where
  risk : String
  reason : String
  recommendation : String
deriving DecidableEq, Repr

/-- The `CROP_RISK_RULES` dictionary of
`deepseek_python_20250514_1975cc.py` (the "AgriSmart" script). -/
def CROP_RISK_RULES : List (String × List (String × RuleEntry)) :=
  [("maize",
    [("open sack", ⟨"High", "Prone to mold in humidity", "Use hermetic bags"⟩),
     ("crib", ⟨"Medium", "Rodent/pest exposure", "Treat with neem powder"⟩),
     ("silo", ⟨"Low", "Controlled conditions", "Monitor moisture levels"⟩)]),
   ("onion",
    [("open field", ⟨"High", "Sunscald and sprouting", "Cure before storage"⟩),
     ("mesh bags", ⟨"Medium", "Limited airflow", "Hang in ventilated shed"⟩),
     ("cold room", ⟨"Low", "Dormancy preservation", "Maintain 0-4°C"⟩)]),
   ("plantain",
    [("bunch hanging", ⟨"Medium", "Even ripening", "Harvest at 75% maturity"⟩),
     ("cardboard box", ⟨"High", "Bruising and compression", "Use separators"⟩),
     ("ripening room", ⟨"Low", "Ethylene control", "Monitor daily"⟩)]),
   ("yam",
    [("barn", ⟨"Medium", "Sprouting after 3 months", "Treat with wood ash"⟩),
     ("pit", ⟨"High", "Rot in rainy season", "Line with straw"⟩),
     ("cold storage", ⟨"Low", "12-month shelf life", "Maintain 12°C"⟩)]),
   ("cassava",
    [("open pile", ⟨"High", "48-hour spoilage window", "Process immediately"⟩),
     ("trench", ⟨"Medium", "Partial protection", "Cover with moist soil"⟩),
     ("processed flour", ⟨"Low", "Stable shelf life", "Package when fully dry"⟩)]),
   ("tomato",
    [("open basket", ⟨"High", "Bruising and decay", "Use plastic crates"⟩),
     ("shaded shed", ⟨"Medium", "Limited shelf life", "Sell within 2 days"⟩),
     ("cold chain", ⟨"Low", "14-day freshness", "Pre-cool before storage"⟩)])]

end AgriSmart

/-- The "Compare All Crops" loop shared by the MVP and AgriGuard scripts:
iterate over the crops of a table in order, keep those that define the
queried storage method, and record the capitalized crop name with the
stored risk level. -/
def compareAcrossCrops (table : List (String × List (String × (String × String × Option String))))
    (storage : String) : List (String × String) :=
  table.filterMap fun p => (p.2.lookup storage).map fun rule => (pyCapitalize p.1, rule.1)

/-- Well-formedness of a risk table under a risk projection: every crop
maps to a non-empty method table, and every stored entry carries one of
the three defined risk levels. -/
def wellFormedTable {α : Type} (riskOf : α → String)
    (table : List (String × List (String × α))) : Prop :=
  ∀ p ∈ table, p.2 ≠ [] ∧ ∀ q ∈ p.2, riskOf q.2 ∈ (["Low", "Medium", "High"] : List String)

/-- An association-list lookup that succeeds returns a pair of the list. -/
theorem mem_of_lookup_eq_some {α β : Type} [BEq α] [LawfulBEq α] {k : α} {v : β} :
    ∀ {l : List (α × β)}, l.lookup k = some v → (k, v) ∈ l := by
  intro l h
  induction l with
  | nil => simp [List.lookup] at h
  | cons p t ih =>
    obtain ⟨a, b⟩ := p
    rw [List.lookup] at h
    cases hk : k == a with
    | true =>
      have hka : k = a := eq_of_beq hk
      rw [hk] at h
      obtain rfl : b = v := by simpa using h
      subst hka
      exact List.mem_cons_self _ _
    | false =>
      rw [hk] at h
      exact List.mem_cons_of_mem _ (ih (by simpa using h))

/-- Every triple stored in the `PHL.py` table carries one of the three
defined risk levels. -/
theorem PHL.rules_risk_mem {c m : String} {t : String × String × Option String}
    (h : PHL.lookupRule c m = some t) : t.1 ∈ (["Low", "Medium", "High"] : List String) := by
  unfold PHL.lookupRule at h
  obtain ⟨ms, h1, h2⟩ := Option.bind_eq_some.mp h
  have hm1 := mem_of_lookup_eq_some h1
  have hm2 := mem_of_lookup_eq_some h2
  have hall : ∀ p ∈ PHL.storage_risk_rules, ∀ q ∈ p.2,
      q.2.1 ∈ (["Low", "Medium", "High"] : List String) := by decide
  exact hall _ hm1 _ hm2

/-- The risk level of any assessment is one of the four level strings. -/
theorem PHL.riskLevel_mem_levels (crop_type storage_method : String) (region : Option String) :
    (PHL.assess_storage_risk crop_type storage_method region).riskLevel ∈
      (["Low", "Medium", "High", "Unknown"] : List String) := by
  cases h : PHL.lookupRule crop_type storage_method with
  | none =>
    have hr : (PHL.assess_storage_risk crop_type storage_method region).riskLevel = "Unknown" := by
      unfold PHL.assess_storage_risk
      rw [h]
    rw [hr]
    decide
  | some t =>
    have hm := PHL.rules_risk_mem h
    have hr : (PHL.assess_storage_risk crop_type storage_method region).riskLevel = t.1 := by
      unfold PHL.assess_storage_risk
      rw [h]
    rw [hr]
    simp only [List.mem_cons, List.not_mem_nil, or_false] at hm ⊢
    tauto

/-- A list of level strings has as many elements as the four level counts
together. -/
theorem levels_count_sum :
    ∀ M : List String, (∀ x ∈ M, x ∈ (["Low", "Medium", "High", "Unknown"] : List String)) →
      M.count "Low" + M.count "Medium" + M.count "High" + M.count "Unknown" = M.length := by
  intro M hM
  induction M with
  | nil => rfl
  | cons x tl ih =>
    have hx := hM x (List.mem_cons_self _ _)
    have htl : ∀ y ∈ tl, y ∈ (["Low", "Medium", "High", "Unknown"] : List String) :=
      fun y hy => hM y (List.mem_cons_of_mem _ hy)
    have ih' := ih htl
    simp only [List.mem_cons, List.not_mem_nil, or_false] at hx
    rcases hx with rfl | rfl | rfl | rfl <;>
      · simp [List.count_cons]
        omega

/-- Soundness direction of the crop-comparison loop: a crop of the table
that defines the queried storage method contributes its pair. -/
theorem compareAcrossCrops_mem
    {table : List (String × List (String × (String × String × Option String)))}
    {storage : String} {p} (hp : p ∈ table) {rule} (hrule : p.2.lookup storage = some rule) :
    (pyCapitalize p.1, rule.1) ∈ compareAcrossCrops table storage := by
  unfold compareAcrossCrops
  exact List.mem_filterMap.mpr ⟨p, hp, by rw [hrule]; rfl⟩

/-- Completeness direction of the crop-comparison loop: every listed pair
comes from a crop that defines the queried storage method. -/
theorem mem_compareAcrossCrops
    {table : List (String × List (String × (String × String × Option String)))}
    {storage : String} {pr} (h : pr ∈ compareAcrossCrops table storage) :
    ∃ p ∈ table, ∃ rule, p.2.lookup storage = some rule ∧ pr = (pyCapitalize p.1, rule.1) := by
  unfold compareAcrossCrops at h
  obtain ⟨p, hp, hf⟩ := List.mem_filterMap.mp h
  obtain ⟨rule, hrule, hg⟩ := Option.map_eq_some'.mp hf
  exact ⟨p, hp, rule, hrule, hg.symm⟩

/-- C1: for every (crop, method) pair present in the `PHL.py` storage-risk
table, `assess_storage_risk` with the region omitted returns the stored
risk level, the stored justification, and the stored recommendation when
the stored third component is not `None`; when it is `None`, the returned
recommendation is the fixed default text "No additional recommendation.";
and the result's crop field is the input crop display-capitalized. -/
theorem assess_storage_risk_table_hit :
    ∀ p ∈ PHL.storage_risk_rules, ∀ q ∈ p.2,
      PHL.assess_storage_risk p.1 q.1 none =
        { crop := pyCapitalize p.1
          storageMethod := q.1
          season := "N/A"
          riskLevel := q.2.1
          justification := q.2.2.1
          recommendation := q.2.2.2.getD "No additional recommendation." } := by decide

/-- Witness for C1 at the stored pair ("tomato", "cold room"), whose
recommendation is `None` and therefore defaults. -/
theorem assess_storage_risk_table_hit_witness :
    PHL.assess_storage_risk "tomato" "cold room" none =
      { crop := "Tomato", storageMethod := "cold room", season := "N/A", riskLevel := "Low",
        justification := "Cold storage preserves tomato freshness and extends shelf life.",
        recommendation := "No additional recommendation." } := by
  have h := assess_storage_risk_table_hit ("tomato", PHL.tomato_rules) (by decide)
    ("cold room", ("Low", "Cold storage preserves tomato freshness and extends shelf life.", none))
    (by decide)
  exact h.trans (by decide)

/-- C2: whenever the (crop, method) pair misses the table — the crop
absent, or the crop present without that method — `assess_storage_risk`
still returns a normal result record, carrying risk level "Unknown", the
fixed fallback justification, and the fixed fallback recommendation; both
miss causes satisfy the same hypothesis and so produce the same risk
data. -/
theorem assess_storage_risk_fallback (crop_type storage_method : String) (region : Option String)
    (h : PHL.lookupRule crop_type storage_method = none) :
    (PHL.assess_storage_risk crop_type storage_method region).riskLevel = "Unknown" ∧
    (PHL.assess_storage_risk crop_type storage_method region).justification =
      "No data available for this combination." ∧
    (PHL.assess_storage_risk crop_type storage_method region).recommendation =
      "Consider using cold storage or consult an extension agent." := by
  unfold PHL.assess_storage_risk
  rw [h]
  exact ⟨rfl, rfl, rfl⟩

/-- Witness for C2 at the unknown crop "durian" (and, for the second miss
cause, the known crop "tomato" with the unknown method "silo"). -/
theorem assess_storage_risk_fallback_witness :
    ((PHL.assess_storage_risk "durian" "box" none).riskLevel = "Unknown" ∧
     (PHL.assess_storage_risk "durian" "box" none).justification =
       "No data available for this combination." ∧
     (PHL.assess_storage_risk "durian" "box" none).recommendation =
       "Consider using cold storage or consult an extension agent.") ∧
    (PHL.assess_storage_risk "tomato" "silo" none).riskLevel = "Unknown" :=
  ⟨assess_storage_risk_fallback "durian" "box" none (by decide),
   (assess_storage_risk_fallback "tomato" "silo" none (by decide)).1⟩

/-- C3: `assess_storage_risk` is a total function of its string inputs —
the embedding returns a record for every crop, method and optional region
— and the returned risk level is always one of exactly "Low", "Medium",
"High", "Unknown". -/
theorem assess_storage_risk_riskLevel_total (crop_type storage_method : String)
    (region : Option String) :
    (PHL.assess_storage_risk crop_type storage_method region).riskLevel ∈
      (["Low", "Medium", "High", "Unknown"] : List String) :=
  PHL.riskLevel_mem_levels crop_type storage_method region

/-- C4: the lookup is exact-match, case- and whitespace-sensitive on both
keys: ("tomato", "sack") is stored, yet capitalizing the crop or padding
either key with whitespace misses the table and yields the Unknown
fallback. -/
theorem assess_storage_risk_case_sensitive :
    PHL.lookupRule "tomato" "sack" =
      some ("High", "Sacks retain heat and moisture, accelerating spoilage for tomatoes.",
            some "Use ventilated crates or shaded baskets.") ∧
    (PHL.assess_storage_risk "Tomato" "sack" none).riskLevel = "Unknown" ∧
    (PHL.assess_storage_risk "Tomato" "sack" none).justification =
      "No data available for this combination." ∧
    (PHL.assess_storage_risk "Tomato" "sack" none).recommendation =
      "Consider using cold storage or consult an extension agent." ∧
    (PHL.assess_storage_risk "tomato" " sack" none).riskLevel = "Unknown" ∧
    (PHL.assess_storage_risk " tomato" "sack" none).riskLevel = "Unknown" := by decide

/-- C5: the region-to-season mapping gives season "Dry" for "north",
"Wet" for "south", "Transition" for "middle-belt", and the default "Dry"
for any other non-empty region (one the mapping does not recognize); with
no region supplied the season field is the not-applicable marker "N/A",
not "Dry". -/
theorem assess_storage_risk_region_season :
    (PHL.assess_storage_risk "tomato" "sack" (some "north")).season = "Dry" ∧
    (PHL.assess_storage_risk "tomato" "sack" (some "south")).season = "Wet" ∧
    (PHL.assess_storage_risk "tomato" "sack" (some "middle-belt")).season = "Transition" ∧
    (∀ r : String, r.isEmpty = false → PHL.region_season.lookup (pyLower r) = none →
        (PHL.assess_storage_risk "tomato" "sack" (some r)).season = "Dry") ∧
    (PHL.assess_storage_risk "tomato" "sack" none).season = "N/A" := by
  refine ⟨by decide, by decide, by decide, ?_, by decide⟩
  intro r hr hl
  unfold PHL.assess_storage_risk
  simp [pyTruthy, hr, hl]

/-- Witness for C5 at the unmapped region "east". -/
theorem assess_storage_risk_region_season_witness :
    ("east" : String).isEmpty = false ∧
    PHL.region_season.lookup (pyLower "east") = none ∧
    (PHL.assess_storage_risk "tomato" "sack" (some "east")).season = "Dry" :=
  ⟨by decide, by decide,
   assess_storage_risk_region_season.2.2.2.1 "east" (by decide) (by decide)⟩

/-- C6 evidence: the first AgriGuard variant builds no storage-method
entry at all in its result dictionary — its own display line
`result["Storage Method"]` therefore has no key to read — while the MVP
variant, the revised AgriGuard variant (under the key "Storage") and
`PHL.py` all return the queried method. -/
theorem assess_risk_storage_key_bug :
    (AgriGuard.assess_risk "tomato" "sack").lookup "Storage Method" = none ∧
    (AgriGuard.assess_risk "tomato" "sack").lookup "Storage" = none ∧
    (AgriGuard.assess_risk "tomato" "sack").map Prod.fst =
      ["Crop", "Risk Level", "Why?", "Recommendation"] ∧
    (MVP.assess_risk "tomato" "sack").lookup "Storage Method" = some "sack" ∧
    (AgriGuardRev.assess_risk "tomato" "sack").lookup "Storage" = some "sack" ∧
    (PHL.assess_storage_risk "tomato" "sack" none).storageMethod = "sack" := by decide

/-- C7: the comparison-across-crops loop lists, for a fixed storage
method, exactly the crops whose table entry defines that method — each
with its stored risk level, capitalized crop name first — and crops
lacking the method contribute nothing; in particular no pair of the
output carries "Unknown" for either prototype table. -/
theorem compareAcrossCrops_exact :
    (∀ (table : List (String × List (String × (String × String × Option String))))
       (storage : String), ∀ p ∈ table, ∀ rule, p.2.lookup storage = some rule →
         (pyCapitalize p.1, rule.1) ∈ compareAcrossCrops table storage) ∧
    (∀ (table : List (String × List (String × (String × String × Option String))))
       (storage : String), ∀ pr ∈ compareAcrossCrops table storage,
         ∃ p ∈ table, ∃ rule, p.2.lookup storage = some rule ∧ pr = (pyCapitalize p.1, rule.1)) ∧
    (∀ storage : String, ∀ pr ∈ compareAcrossCrops MVP.storage_risk_rules storage,
        pr.2 ≠ "Unknown") ∧
    (∀ storage : String, ∀ pr ∈ compareAcrossCrops AgriGuard.storage_risk_rules storage,
        pr.2 ≠ "Unknown") := by
  refine ⟨?_, ?_, ?_, ?_⟩
  · intro table storage p hp rule hrule
    exact compareAcrossCrops_mem hp hrule
  · intro table storage pr hpr
    exact mem_compareAcrossCrops hpr
  · intro storage pr hpr
    obtain ⟨p, hp, rule, hrule, hpr2⟩ := mem_compareAcrossCrops hpr
    have hm := mem_of_lookup_eq_some hrule
    have hall : ∀ p ∈ MVP.storage_risk_rules, ∀ q ∈ p.2, q.2.1 ≠ "Unknown" := by decide
    rw [hpr2]
    exact hall _ hp _ hm
  · intro storage pr hpr
    obtain ⟨p, hp, rule, hrule, hpr2⟩ := mem_compareAcrossCrops hpr
    have hm := mem_of_lookup_eq_some hrule
    have hall : ∀ p ∈ AgriGuard.storage_risk_rules, ∀ q ∈ p.2, q.2.1 ≠ "Unknown" := by decide
    rw [hpr2]
    exact hall _ hp _ hm

/-- Witness for C7: in the AgriGuard table both tomato and cassava define
"sack", so both pairs appear; yam is absent from that table. -/
theorem compareAcrossCrops_exact_witness :
    ("Tomato", "High") ∈ compareAcrossCrops AgriGuard.storage_risk_rules "sack" := by
  have h := compareAcrossCrops_exact.1 AgriGuard.storage_risk_rules "sack"
    ("tomato",
      [("open shed", ("High", "Tomatoes degrade fast in open-air storage.", some "Use evaporative cooling or cold storage.")),
       ("sack", ("High", "Sacks retain heat/moisture, accelerating spoilage.", some "Use ventilated crates.")),
       ("evap. cooler", ("Medium", "Reduces temperature but needs maintenance.", some "Ensure water supply.")),
       ("cold room", ("Low", "Preserves freshness effectively.", none))])
    (by decide)
    ("High", "Sacks retain heat/moisture, accelerating spoilage.", some "Use ventilated crates.")
    (by decide)
  have e : pyCapitalize "tomato" = "Tomato" := by decide
  rw [e] at h
  exact h

/-- C8: tallying the risk levels of a batch of (crop, method) pairs
through `assess_storage_risk` counts every result, Unknown included; the
tally is invariant under permutation of the batch; the four counts sum to
the batch length; and on the batch [("tomato","sack"),
("cassava","open shed"), ("durian","box")] the tally is two "High" (the
stored levels of the first two pairs), one "Unknown", and total 3. -/
theorem risk_tally_spec :
    (∀ b₁ b₂ : List (String × String), b₁.Perm b₂ →
        ∀ level, PHL.riskCount b₁ level = PHL.riskCount b₂ level) ∧
    (∀ b : List (String × String),
        PHL.riskCount b "Low" + PHL.riskCount b "Medium" + PHL.riskCount b "High" +
          PHL.riskCount b "Unknown" = b.length) ∧
    (PHL.riskCount [("tomato", "sack"), ("cassava", "open shed"), ("durian", "box")] "High" = 2 ∧
     PHL.riskCount [("tomato", "sack"), ("cassava", "open shed"), ("durian", "box")] "Unknown" = 1 ∧
     PHL.riskCount [("tomato", "sack"), ("cassava", "open shed"), ("durian", "box")] "Low" = 0 ∧
     PHL.riskCount [("tomato", "sack"), ("cassava", "open shed"), ("durian", "box")] "Medium" = 0 ∧
     ([("tomato", "sack"), ("cassava", "open shed"), ("durian", "box")] : List (String × String)).length = 3) := by
  refine ⟨?_, ?_, by decide, by decide, by decide, by decide, by decide⟩
  · intro b₁ b₂ h level
    show (PHL.riskLevelsOf b₁).count level = (PHL.riskLevelsOf b₂).count level
    exact (h.map _).count_eq level
  · intro b
    have hM : ∀ x ∈ PHL.riskLevelsOf b, x ∈ (["Low", "Medium", "High", "Unknown"] : List String) := by
      intro x hx
      obtain ⟨cs, _, rfl⟩ := List.mem_map.mp hx
      exact PHL.riskLevel_mem_levels cs.1 cs.2 none
    have h := levels_count_sum (PHL.riskLevelsOf b) hM
    have h2 : (PHL.riskLevelsOf b).length = b.length := List.length_map _ _
    unfold PHL.riskCount
    exact h.trans h2

/-- Witness for C8: the permutation and sum parts applied to a two-pair
batch and its swap. -/
theorem risk_tally_spec_witness :
    PHL.riskCount [("tomato", "sack"), ("durian", "box")] "Unknown" =
      PHL.riskCount [("durian", "box"), ("tomato", "sack")] "Unknown" ∧
    PHL.riskCount [("tomato", "sack"), ("durian", "box")] "Low" +
        PHL.riskCount [("tomato", "sack"), ("durian", "box")] "Medium" +
        PHL.riskCount [("tomato", "sack"), ("durian", "box")] "High" +
        PHL.riskCount [("tomato", "sack"), ("durian", "box")] "Unknown" = 2 :=
  ⟨risk_tally_spec.1 _ _ (List.Perm.swap _ _ _) "Unknown",
   risk_tally_spec.2.1 [("tomato", "sack"), ("durian", "box")]⟩

/-- C9: in every variant of the knowledge base — the `PHL.py` table, the
AgriSmart `CROP_RISK_RULES` table, and the three prototype tables — every
crop maps to a non-empty method table and every stored risk level is one
of exactly "Low", "Medium", "High"; "Unknown" is never stored. -/
theorem tables_wellFormed :
    wellFormedTable (fun t => t.1) PHL.storage_risk_rules ∧
    wellFormedTable (fun e => e.risk) AgriSmart.CROP_RISK_RULES ∧
    wellFormedTable (fun t => t.1) MVP.storage_risk_rules ∧
    wellFormedTable (fun t => t.1) AgriGuard.storage_risk_rules ∧
    wellFormedTable (fun t => t.1) AgriGuardRev.storage_risk_rules := by
  refine ⟨?_, ?_, ?_, ?_, ?_⟩ <;>
    · unfold wellFormedTable
      decide

/-- C10: unlike the crop and method keys, the region is matched
case-insensitively: for a non-empty region the season is looked up on the
lowercased region, so "SOUTH", "South" and "south" all give "Wet"; an
empty-string region is falsy in Python and is treated as absent, the
season reading "N/A". -/
theorem assess_storage_risk_region_lowercase :
    (∀ crop_type storage_method r : String, r.isEmpty = false →
        (PHL.assess_storage_risk crop_type storage_method (some r)).season =
          (PHL.region_season.lookup (pyLower r)).getD "Dry") ∧
    (PHL.assess_storage_risk "tomato" "sack" (some "SOUTH")).season = "Wet" ∧
    (PHL.assess_storage_risk "tomato" "sack" (some "South")).season = "Wet" ∧
    (PHL.assess_storage_risk "tomato" "sack" (some "south")).season = "Wet" ∧
    (PHL.assess_storage_risk "tomato" "sack" (some "")).season = "N/A" := by
  refine ⟨?_, by decide, by decide, by decide, by decide⟩
  intro crop_type storage_method r hr
  unfold PHL.assess_storage_risk
  simp [pyTruthy, hr]

/-- Witness for C10 at the all-caps region "SOUTH". -/
theorem assess_storage_risk_region_lowercase_witness :
    ("SOUTH" : String).isEmpty = false ∧
    (PHL.assess_storage_risk "tomato" "sack" (some "SOUTH")).season =
      (PHL.region_season.lookup (pyLower "SOUTH")).getD "Dry" :=
  ⟨by decide, assess_storage_risk_region_lowercase.1 "tomato" "sack" "SOUTH" (by decide)⟩
